import Mathlib

/-!
Shallow embedding of the edge-veda core (src/core/src/engine.cpp and
src/core/src/memory_guard.cpp): the streaming generation state machine
(`ev_stream_impl`, `ev_generate_stream`, `ev_stream_next`, `ev_stream_cancel`,
`ev_stream_has_next`, `ev_stream_get_token_info`) and the memory watchdog
(`MemoryGuardState` and the `memory_guard_*` operations).

The wrapped inference library (llama.cpp) is external: its per-call responses
(tokenization result, decode success, sampled token, EOS flag, logits-derived
confidence value, token-to-piece length and text) are supplied by an oracle
argument.  C `int` values are modelled as `Int`, `size_t` as `Nat`, and
`float`/`double` quantities as `ℚ` (no claim depends on rounding behaviour).
Heap allocation of result strings is assumed to succeed.
-/

/-- The `ev_error_t` enumeration from edge_veda.h. -/
inductive EvError where
  | success
  | invalidParam
  | outOfMemory
  | modelLoadFailed
  | backendInitFailed
  | inferenceFailed
  | contextInvalid
  | streamEnded
  | notImplemented
  | memoryLimitExceeded
  | unsupportedBackend
deriving DecidableEq, Repr

/-- Classification of the terminal transition taken by a `next()` call, in the
spec's state-machine vocabulary.  `ev_stream_next` has one code branch per
kind; this labels which branch set `ended = true` during the call. -/
inductive TerminalKind where
  | endedNatural
  | endedCancelled
  | endedError
deriving DecidableEq, Repr

/-- The fields of `ev_generation_params` read by the streaming state machine.
The sampler-shaping fields (`temperature`, `top_p`, `top_k`, penalties,
grammar) are consumed only by the external llama.cpp sampler chain built in
`create_sampler` and are not modelled. -/
structure GenParams where
  maxTokens : Int
  confidenceThreshold : ℚ
deriving DecidableEq, Repr

/-- `ev_generation_params_default` (engine.cpp): `max_tokens = 512`,
`confidence_threshold = 0.0f`. -/
def ev_generation_params_default : GenParams :=
  { maxTokens := 512, confidenceThreshold := 0 }

/-- The `ev_stream_impl` structure (engine.cpp): per-stream state machine
state.  `promptTokens` is the tokenized prompt, `nCur` the decode cursor
(`n_cur`), and the confidence fields mirror `last_confidence`,
`confidence_sum`, `confidence_count`, `needs_handoff`.  `confidence_count` is
a C `int` that starts at 0 and is only incremented, so it is modelled as
`Nat`. -/
structure EvStreamImpl where
  promptTokens : List Int
  params : GenParams
  ended : Bool
  cancelled : Bool
  nCur : Int
  promptEvaluated : Bool
  lastConfidence : ℚ
  confidenceSum : ℚ
  confidenceCount : Nat
  needsHandoff : Bool
deriving DecidableEq, Repr

/-- The `ev_stream_impl` constructor: fresh stream over a tokenized prompt
(`ended = false`, `cancelled = false`, `n_cur = 0`, `prompt_evaluated =
false`, `last_confidence = -1`, `confidence_sum = 0`, `confidence_count = 0`,
`needs_handoff = false`). -/
def initStream (promptTokens : List Int) (params : GenParams) : EvStreamImpl :=
  { promptTokens := promptTokens
    params := params
    ended := false
    cancelled := false
    nCur := 0
    promptEvaluated := false
    lastConfidence := -1
    confidenceSum := 0
    confidenceCount := 0
    needsHandoff := false }

/-- Responses of the external llama.cpp engine consumed by one
`ev_stream_next` call.  `promptDecodeOk` is whether every prompt-chunk
`llama_decode` succeeds (consulted only on the first call);
`cancelMidStep` models a concurrent `cancel()` that becomes visible at the
second cancellation checkpoint; `logitsConfidence` is the value the
entropy-based confidence computation produces from the current logits;
`pieceLen` is the return value of `llama_token_to_piece` and `pieceText` the
rendered fragment when `pieceLen > 0`; `feedbackDecodeOk` is whether the
single-token feedback `llama_decode` succeeds. -/
structure EngineStepOracle where
  promptDecodeOk : Bool
  cancelMidStep : Bool
  sampledToken : Int
  isEog : Bool
  logitsConfidence : ℚ
  pieceLen : Int
  pieceText : String
  feedbackDecodeOk : Bool
deriving DecidableEq, Repr

/-- Engine operations issued by a `next()` call, in source order. -/
inductive EngineOp where
  | kvClear
  | decodePrompt
  | sample
  | getLogits
  | tokenToPiece
  | decodeToken
deriving DecidableEq, Repr

/-- Result of one `ev_stream_next` call: the returned fragment (`none` for a
NULL return), the `ev_error_t` written through the out-parameter, the updated
stream state, the terminal transition taken (if any), and the engine
operations performed. -/
structure NextResult where
  fragment : Option String
  status : EvError
  stream : EvStreamImpl
  terminal : Option TerminalKind
  engineOps : List EngineOp
deriving DecidableEq, Repr

/-- The confidence-scoring block of `ev_stream_next` (engine.cpp lines
760-797): executed only when `confidence_threshold > 0`; records the last
confidence, accumulates the running sum/count, and sets the sticky
`needs_handoff` flag when the running average falls below the threshold with
at least 3 measurements. -/
def updateConfidence (s : EvStreamImpl) (o : EngineStepOracle) : EvStreamImpl :=
  if 0 < s.params.confidenceThreshold then
    let conf := o.logitsConfidence
    let sum := s.confidenceSum + conf
    let count := s.confidenceCount + 1
    let avg := sum / (count : ℚ)
    { s with
      lastConfidence := conf
      confidenceSum := sum
      confidenceCount := count
      needsHandoff :=
        if avg < s.params.confidenceThreshold ∧ 3 ≤ count then true else s.needsHandoff }
  else s

/-- The generation part of `ev_stream_next` (engine.cpp lines 734-837),
entered after the cancellation/ended checks and prompt evaluation:
max-tokens check, second cancellation checkpoint, sampling, EOS check,
confidence scoring, token-to-piece conversion, and the feedback decode.
`evalOps` carries the engine operations already performed by prompt
evaluation.  Note that on the empty-piece path (`pieceLen ≤ 0`, lines
802-814) the feedback `llama_decode` is issued but its result is ignored. -/
def generateStep (s : EvStreamImpl) (o : EngineStepOracle) (evalOps : List EngineOp) :
    NextResult :=
  if s.params.maxTokens ≤ s.nCur - (s.promptTokens.length : Int) then
    { fragment := none, status := .success, stream := { s with ended := true },
      terminal := some .endedNatural, engineOps := evalOps }
  else if o.cancelMidStep then
    { fragment := none, status := .streamEnded,
      stream := { s with ended := true, cancelled := true },
      terminal := some .endedCancelled, engineOps := evalOps }
  else if o.isEog then
    { fragment := none, status := .success, stream := { s with ended := true },
      terminal := some .endedNatural, engineOps := evalOps ++ [EngineOp.sample] }
  else
    let s2 := updateConfidence s o
    let ops := evalOps ++ [EngineOp.sample] ++
      (if 0 < s.params.confidenceThreshold then [EngineOp.getLogits] else []) ++
      [EngineOp.tokenToPiece, EngineOp.decodeToken]
    if o.pieceLen ≤ 0 then
      { fragment := some "", status := .success,
        stream := { s2 with nCur := s2.nCur + 1 },
        terminal := none, engineOps := ops }
    else if o.feedbackDecodeOk then
      { fragment := some o.pieceText, status := .success,
        stream := { s2 with nCur := s2.nCur + 1 },
        terminal := none, engineOps := ops }
    else
      { fragment := none, status := .inferenceFailed, stream := { s2 with ended := true },
        terminal := some .endedError, engineOps := ops }

/-- `ev_stream_next` (engine.cpp lines 684-843): cancellation checkpoint
first, then the already-ended check, then (on the first call) KV-cache clear
and chunked prompt evaluation, then the generation step. -/
def ev_stream_next (s : EvStreamImpl) (o : EngineStepOracle) : NextResult :=
  if s.cancelled then
    { fragment := none, status := .streamEnded, stream := { s with ended := true },
      terminal := some .endedCancelled, engineOps := [] }
  else if s.ended then
    { fragment := none, status := .streamEnded, stream := s,
      terminal := none, engineOps := [] }
  else if s.promptEvaluated then
    generateStep s o []
  else if o.promptDecodeOk then
    generateStep
      { s with nCur := (s.promptTokens.length : Int), promptEvaluated := true } o
      [EngineOp.kvClear, EngineOp.decodePrompt]
  else
    { fragment := none, status := .inferenceFailed, stream := { s with ended := true },
      terminal := some .endedError, engineOps := [EngineOp.kvClear, EngineOp.decodePrompt] }

/-- `ev_stream_cancel` (engine.cpp lines 851-855): atomic store of the
cancellation flag; no other state is touched. -/
def ev_stream_cancel (s : EvStreamImpl) : EvStreamImpl :=
  { s with cancelled := true }

/-- `ev_stream_has_next` (engine.cpp lines 845-849):
`!stream->ended && !stream->check_cancelled()`. -/
def ev_stream_has_next (s : EvStreamImpl) : Bool :=
  !s.ended && !s.cancelled

/-- The `ev_stream_token_info` structure filled by
`ev_stream_get_token_info`. -/
structure EvStreamTokenInfo where
  confidence : ℚ
  avgConfidence : ℚ
  needsCloudHandoff : Bool
  tokenIndex : Nat
deriving DecidableEq, Repr

/-- `ev_stream_get_token_info` (engine.cpp lines 867-880): reports the last
confidence, the running average (or -1 when no measurement exists), the
handoff flag, and `token_index = confidence_count`. -/
def ev_stream_get_token_info (s : EvStreamImpl) : EvStreamTokenInfo :=
  { confidence := s.lastConfidence
    avgConfidence :=
      if 0 < s.confidenceCount then s.confidenceSum / (s.confidenceCount : ℚ) else -1
    needsCloudHandoff := s.needsHandoff
    tokenIndex := s.confidenceCount }

/-- `ev_generate_stream` (engine.cpp lines 632-682), given the external
tokenizer's output `promptTokens` and the engine's context size `nCtx`
(`llama_n_ctx`): fails with `EV_ERROR_INFERENCE_FAILED` when tokenization
produced no tokens, fails with `EV_ERROR_INFERENCE_FAILED` when the prompt
exceeds `n_ctx - 4` (the too-long branch, lines 663-669), and otherwise
returns a fresh stream.  Context-validity marshalling and sampler allocation
are assumed to succeed. -/
def ev_generate_stream (promptTokens : List Int) (nCtx : Int) (params : GenParams) :
    Except EvError EvStreamImpl :=
  if promptTokens = [] then
    Except.error EvError.inferenceFailed
  else if nCtx - 4 < (promptTokens.length : Int) then
    Except.error EvError.inferenceFailed
  else
    Except.ok (initStream promptTokens params)

/-- Drive a stream through a list of per-call engine oracles, collecting for
each `next()` call the fragment, the status, and the terminal transition
taken, together with the final stream state. -/
def runStream (s : EvStreamImpl) :
    List EngineStepOracle →
      List (Option String × EvError × Option TerminalKind) × EvStreamImpl
  | [] => ([], s)
  | o :: os =>
    let r := ev_stream_next s o
    let rest := runStream r.stream os
    ((r.fragment, r.status, r.terminal) :: rest.1, rest.2)

/-! ## Memory guard (memory_guard.cpp) -/

/-- The `MemoryGuardState` structure (memory_guard.cpp lines 37-69).  The
callback is modelled by whether one is registered; the platform probe is
external, so operations that read it take the probed value as an argument. -/
structure MemoryGuardState where
  memoryLimit : Nat
  currentUsage : Nat
  peakUsage : Nat
  callbackRegistered : Bool
  monitoringActive : Bool
  checkIntervalMs : Int
  pressureThreshold : ℚ
  autoCleanup : Bool
deriving DecidableEq, Repr

/-- The in-class initializers of `MemoryGuardState` (`g_memory_guard` at
start-up): no limit, zero usage/peak, no callback, not monitoring, 1000 ms
interval, threshold 0.9, auto-cleanup on. -/
def memoryGuardInitialState : MemoryGuardState :=
  { memoryLimit := 0
    currentUsage := 0
    peakUsage := 0
    callbackRegistered := false
    monitoringActive := false
    checkIntervalMs := 1000
    pressureThreshold := 9 / 10
    autoCleanup := true }

/-- One iteration of `memory_monitor_loop` (memory_guard.cpp lines 210-255)
with platform probe reading `probe`: store the current usage and raise the
peak via the compare-and-swap loop (equivalent to a max).  The pressure
callback invocation and the auto-cleanup hint do not modify guard state. -/
def memory_monitor_step (st : MemoryGuardState) (probe : Nat) : MemoryGuardState :=
  { st with currentUsage := probe, peakUsage := max st.peakUsage probe }

/-- `start_monitoring` (memory_guard.cpp lines 257-264): idempotent flag
set (thread creation is external). -/
def start_monitoring (st : MemoryGuardState) : MemoryGuardState :=
  { st with monitoringActive := true }

/-- `stop_monitoring` (memory_guard.cpp lines 266-276): flag clear plus
join (external). -/
def stop_monitoring (st : MemoryGuardState) : MemoryGuardState :=
  { st with monitoringActive := false }

/-- `memory_guard_set_limit` (memory_guard.cpp lines 319-330): store the
limit, then start monitoring when `limit > 0` and stop it otherwise. -/
def memory_guard_set_limit (st : MemoryGuardState) (limitBytes : Nat) : MemoryGuardState :=
  let st1 := { st with memoryLimit := limitBytes }
  if 0 < limitBytes then start_monitoring st1 else stop_monitoring st1

/-- `memory_guard_get_current_usage` (memory_guard.cpp lines 288-297): the
cached value while monitoring is active, otherwise a direct platform probe
taken at call time. -/
def memory_guard_get_current_usage (st : MemoryGuardState) (probe : Nat) : Nat :=
  if st.monitoringActive then st.currentUsage else probe

/-- `memory_guard_get_peak_usage` (memory_guard.cpp lines 303-305). -/
def memory_guard_get_peak_usage (st : MemoryGuardState) : Nat :=
  st.peakUsage

/-- `memory_guard_set_callback` (memory_guard.cpp lines 345-353): replace the
registration under the lock (`nullptr` clears it). -/
def memory_guard_set_callback (st : MemoryGuardState) (registered : Bool) : MemoryGuardState :=
  { st with callbackRegistered := registered }

/-- `memory_guard_set_threshold` (memory_guard.cpp lines 359-365): clamp to
[0, 1] and store. -/
def memory_guard_set_threshold (st : MemoryGuardState) (t : ℚ) : MemoryGuardState :=
  { st with pressureThreshold := min 1 (max 0 t) }

/-- `memory_guard_set_check_interval` (memory_guard.cpp lines 371-377): clamp
to [100, 60000] ms and store. -/
def memory_guard_set_check_interval (st : MemoryGuardState) (ms : Int) : MemoryGuardState :=
  { st with checkIntervalMs := min 60000 (max 100 ms) }

/-- `memory_guard_set_auto_cleanup` (memory_guard.cpp lines 383-386). -/
def memory_guard_set_auto_cleanup (st : MemoryGuardState) (enable : Bool) : MemoryGuardState :=
  { st with autoCleanup := enable }

/-- `memory_guard_cleanup` (memory_guard.cpp lines 391-398): force a fresh
probe into the cached current usage; the peak is untouched. -/
def memory_guard_cleanup (st : MemoryGuardState) (probe : Nat) : MemoryGuardState :=
  { st with currentUsage := probe }

/-- `memory_guard_reset_stats` (memory_guard.cpp lines 403-408): zero the
peak and current usage. -/
def memory_guard_reset_stats (st : MemoryGuardState) : MemoryGuardState :=
  { st with peakUsage := 0, currentUsage := 0 }

/-- `memory_guard_start` (memory_guard.cpp lines 413-415). -/
def memory_guard_start (st : MemoryGuardState) : MemoryGuardState :=
  start_monitoring st

/-- `memory_guard_stop` (memory_guard.cpp lines 420-426): stop monitoring and
clear the callback registration. -/
def memory_guard_stop (st : MemoryGuardState) : MemoryGuardState :=
  { stop_monitoring st with callbackRegistered := false }

/-- `memory_guard_init` (memory_guard.cpp lines 431-438): store the current
platform probe reading into BOTH `current_usage` and `peak_usage`
(an unconditional store, not a max). -/
def memory_guard_init (st : MemoryGuardState) (probe : Nat) : MemoryGuardState :=
  { st with currentUsage := probe, peakUsage := probe }

/-- `memory_guard_shutdown` (memory_guard.cpp lines 443-451): stop
monitoring, reset stats, clear limit and callback. -/
def memory_guard_shutdown (st : MemoryGuardState) : MemoryGuardState :=
  let st1 := memory_guard_reset_stats (stop_monitoring st)
  { st1 with memoryLimit := 0, callbackRegistered := false }

/-- `memory_guard_is_under_pressure` (memory_guard.cpp lines 472-482). -/
def memory_guard_is_under_pressure (st : MemoryGuardState) : Bool :=
  if st.memoryLimit = 0 then false
  else decide (st.pressureThreshold ≤ (st.currentUsage : ℚ) / (st.memoryLimit : ℚ))

/-- The state-mutating `memory_guard_*` entry points (and the monitor-loop
body), as a single operation type so order-independent invariants can be
stated over arbitrary operation sequences.  Pure queries
(`get_current_usage`, `get_peak_usage`, `get_limit`, `is_under_pressure`,
`get_usage_percentage`, `get_total_memory`, `get_recommended_limit`) do not
modify the state. -/
inductive GuardOp where
  | monitorStep (probe : Nat)
  | setLimit (limitBytes : Nat)
  | setCallback (registered : Bool)
  | setThreshold (t : ℚ)
  | setCheckInterval (ms : Int)
  | setAutoCleanup (enable : Bool)
  | cleanup (probe : Nat)
  | resetStats
  | start
  | stop
  | init (probe : Nat)
  | shutdown
deriving DecidableEq, Repr

/-- Apply one guard operation to the guard state. -/
def GuardOp.apply : GuardOp → MemoryGuardState → MemoryGuardState
  | .monitorStep probe, st => memory_monitor_step st probe
  | .setLimit limitBytes, st => memory_guard_set_limit st limitBytes
  | .setCallback registered, st => memory_guard_set_callback st registered
  | .setThreshold t, st => memory_guard_set_threshold st t
  | .setCheckInterval ms, st => memory_guard_set_check_interval st ms
  | .setAutoCleanup enable, st => memory_guard_set_auto_cleanup st enable
  | .cleanup probe, st => memory_guard_cleanup st probe
  | .resetStats, st => memory_guard_reset_stats st
  | .start, st => memory_guard_start st
  | .stop, st => memory_guard_stop st
  | .init probe, st => memory_guard_init st probe
  | .shutdown, st => memory_guard_shutdown st

/-! ## Helper definitions for the theorems -/

/-- A concrete, fully successful engine response: prompt decode succeeds, no
concurrent cancel, the sampled token is not EOS, it renders as the one-byte
fragment "a", and the feedback decode succeeds. -/
def sampleOracle : EngineStepOracle :=
  { promptDecodeOk := true
    cancelMidStep := false
    sampledToken := 7
    isEog := false
    logitsConfidence := 1 / 2
    pieceLen := 1
    pieceText := "a"
    feedbackDecodeOk := true }

/-- An engine response on which every engine call of a `next()` step
succeeds and the sampled token is not an end-of-sequence marker (the token
may render as empty or as non-empty text). -/
@[reducible] def goodOracle (o : EngineStepOracle) : Prop :=
  o.promptDecodeOk = true ∧ o.cancelMidStep = false ∧ o.isEog = false ∧
  o.feedbackDecodeOk = true

/-- Proof-internal invariant: a live (non-terminal) stream that has produced
`k` generated tokens so far — either still awaiting prompt evaluation (then
`k = 0`) or with the cursor `k` tokens past the prompt. -/
@[reducible] def preStream (s : EvStreamImpl) (k : Nat) : Prop :=
  s.ended = false ∧ s.cancelled = false ∧
  ((s.promptEvaluated = false ∧ k = 0) ∨
   (s.promptEvaluated = true ∧ s.nCur = (s.promptTokens.length : Int) + k))

/-! ## Helper lemmas -/

/-- Confidence-threshold-zero streams never touch the confidence state. -/
theorem updateConfidence_of_not_pos (s : EvStreamImpl) (o : EngineStepOracle)
    (h : ¬ 0 < s.params.confidenceThreshold) : updateConfidence s o = s := by
  simp [updateConfidence, h]

/-- `updateConfidence` increments the measurement count exactly when the
threshold is positive. -/
theorem updateConfidence_count_pos (s : EvStreamImpl) (o : EngineStepOracle)
    (h : 0 < s.params.confidenceThreshold) :
    (updateConfidence s o).confidenceCount = s.confidenceCount + 1 := by
  simp [updateConfidence, h]

/-- `updateConfidence` never decreases the measurement count. -/
theorem updateConfidence_count_mono (s : EvStreamImpl) (o : EngineStepOracle) :
    s.confidenceCount ≤ (updateConfidence s o).confidenceCount := by
  by_cases h : 0 < s.params.confidenceThreshold <;> simp [updateConfidence, h]

/-- `updateConfidence` only touches the confidence fields. -/
theorem updateConfidence_skeleton (s : EvStreamImpl) (o : EngineStepOracle) :
    (updateConfidence s o).promptTokens = s.promptTokens ∧
    (updateConfidence s o).params = s.params ∧
    (updateConfidence s o).ended = s.ended ∧
    (updateConfidence s o).cancelled = s.cancelled ∧
    (updateConfidence s o).nCur = s.nCur ∧
    (updateConfidence s o).promptEvaluated = s.promptEvaluated := by
  by_cases h : 0 < s.params.confidenceThreshold <;> simp [updateConfidence, h]

/-- The generation step never decreases the measurement count. -/
theorem generateStep_count_mono (s : EvStreamImpl) (o : EngineStepOracle)
    (ops : List EngineOp) :
    s.confidenceCount ≤ (generateStep s o ops).stream.confidenceCount := by
  have h := updateConfidence_count_mono s o
  simp only [generateStep]
  split_ifs <;> simp_all

/-- When the threshold is positive, a generation step that returns a
fragment has incremented the measurement count by exactly one. -/
theorem generateStep_some_count (s : EvStreamImpl) (o : EngineStepOracle)
    (ops : List EngineOp) (hth : 0 < s.params.confidenceThreshold)
    (hf : (generateStep s o ops).fragment ≠ none) :
    (generateStep s o ops).stream.confidenceCount = s.confidenceCount + 1 := by
  have h := updateConfidence_count_pos s o hth
  simp only [generateStep] at hf ⊢
  split_ifs at hf ⊢ <;> simp_all

/-- `updateConfidence` leaves the prompt unchanged. -/
@[simp] theorem updateConfidence_promptTokens (s : EvStreamImpl) (o : EngineStepOracle) :
    (updateConfidence s o).promptTokens = s.promptTokens := by
  by_cases h : 0 < s.params.confidenceThreshold <;> simp [updateConfidence, h]

/-- `updateConfidence` leaves the parameters unchanged. -/
@[simp] theorem updateConfidence_params (s : EvStreamImpl) (o : EngineStepOracle) :
    (updateConfidence s o).params = s.params := by
  by_cases h : 0 < s.params.confidenceThreshold <;> simp [updateConfidence, h]

/-- `updateConfidence` leaves the ended flag unchanged. -/
@[simp] theorem updateConfidence_ended (s : EvStreamImpl) (o : EngineStepOracle) :
    (updateConfidence s o).ended = s.ended := by
  by_cases h : 0 < s.params.confidenceThreshold <;> simp [updateConfidence, h]

/-- `updateConfidence` leaves the cancellation flag unchanged. -/
@[simp] theorem updateConfidence_cancelled (s : EvStreamImpl) (o : EngineStepOracle) :
    (updateConfidence s o).cancelled = s.cancelled := by
  by_cases h : 0 < s.params.confidenceThreshold <;> simp [updateConfidence, h]

/-- `updateConfidence` leaves the cursor unchanged. -/
@[simp] theorem updateConfidence_nCur (s : EvStreamImpl) (o : EngineStepOracle) :
    (updateConfidence s o).nCur = s.nCur := by
  by_cases h : 0 < s.params.confidenceThreshold <;> simp [updateConfidence, h]

/-- `updateConfidence` leaves the prompt-evaluated flag unchanged. -/
@[simp] theorem updateConfidence_promptEvaluated (s : EvStreamImpl) (o : EngineStepOracle) :
    (updateConfidence s o).promptEvaluated = s.promptEvaluated := by
  by_cases h : 0 < s.params.confidenceThreshold <;> simp [updateConfidence, h]

/-- When the max-tokens budget is exhausted, the generation step ends the
stream naturally with a success status (engine.cpp lines 734-739). -/
theorem generateStep_natural_end (s : EvStreamImpl) (o : EngineStepOracle)
    (ops : List EngineOp)
    (hmax : s.params.maxTokens ≤ s.nCur - (s.promptTokens.length : Int)) :
    generateStep s o ops =
      { fragment := none, status := EvError.success, stream := { s with ended := true },
        terminal := some TerminalKind.endedNatural, engineOps := ops } := by
  simp [generateStep, hmax]

/-- A fully successful `next()` call on a live stream with `k` generated
tokens and budget remaining: returns a non-none fragment (the rendered text,
or the empty string for an empty-rendering token), and the stream stays live
with `k + 1` generated tokens and unchanged parameters. -/
theorem next_continue (s : EvStreamImpl) (o : EngineStepOracle) (k : Nat)
    (hs : preStream s k) (ho : goodOracle o) (hk : (k : Int) < s.params.maxTokens) :
    (ev_stream_next s o).fragment =
      some (if o.pieceLen ≤ 0 then "" else o.pieceText) ∧
    (ev_stream_next s o).status = EvError.success ∧
    (ev_stream_next s o).terminal = none ∧
    preStream (ev_stream_next s o).stream (k + 1) ∧
    (ev_stream_next s o).stream.params = s.params := by
  obtain ⟨hend, hcan, hval⟩ := hs
  obtain ⟨ho1, ho2, ho3, ho5⟩ := ho
  have hknot : ¬ s.params.maxTokens ≤ (k : Int) := not_le.mpr hk
  rcases hval with ⟨hpe, hk0⟩ | ⟨hpe, hn⟩
  · subst hk0
    have hknot0 : ¬ s.params.maxTokens ≤ (0 : Int) := by
      simpa using hknot
    simp only [ev_stream_next, hcan, hend, hpe, ho1, Bool.false_eq_true, if_false, if_true,
      ite_true, ite_false]
    by_cases hnp : o.pieceLen ≤ 0 <;>
      [skip; skip] <;>
    · simp only [generateStep, sub_self, hknot0, ho2, ho3, hnp, ho5, Bool.false_eq_true,
        if_false, if_true, ite_true, ite_false]
      refine ⟨by simp [hnp], by simp, by simp, ?_, by simp⟩
      refine ⟨by simp [hend], by simp [hcan], Or.inr ⟨by simp, ?_⟩⟩
      simp
  · have hsub : s.nCur - (s.promptTokens.length : Int) = (k : Int) := by
      rw [hn]; ring
    have hknot2 : ¬ s.params.maxTokens ≤ s.nCur - (s.promptTokens.length : Int) := by
      rw [hsub]; exact hknot
    simp only [ev_stream_next, hcan, hend, hpe, Bool.false_eq_true, if_false, if_true,
      ite_true, ite_false]
    by_cases hnp : o.pieceLen ≤ 0 <;>
      [skip; skip] <;>
    · simp only [generateStep, hknot2, ho2, ho3, hnp, ho5, Bool.false_eq_true,
        if_false, if_true, ite_true, ite_false]
      refine ⟨by simp [hnp], by simp, by simp, ?_, by simp⟩
      refine ⟨by simp [hend], by simp [hcan], Or.inr ⟨by simp [hpe], ?_⟩⟩
      simp [hn]
      ring

/-- A `next()` call on a live stream whose generated-token count has reached
the max-tokens budget: returns `none` with a success status and the natural
terminal transition (this is not an error). -/
theorem next_natural_end (s : EvStreamImpl) (o : EngineStepOracle) (k : Nat)
    (hs : preStream s k) (ho : goodOracle o) (hk : s.params.maxTokens ≤ (k : Int)) :
    (ev_stream_next s o).fragment = none ∧
    (ev_stream_next s o).status = EvError.success ∧
    (ev_stream_next s o).terminal = some TerminalKind.endedNatural := by
  obtain ⟨hend, hcan, hval⟩ := hs
  obtain ⟨ho1, _, _, _⟩ := ho
  rcases hval with ⟨hpe, hk0⟩ | ⟨hpe, hn⟩
  · subst hk0
    have hstep := generateStep_natural_end
      { s with nCur := (s.promptTokens.length : Int), promptEvaluated := true } o
      [EngineOp.kvClear, EngineOp.decodePrompt] (by simpa using hk)
    simp only [hend, hcan] at hstep
    simp only [ev_stream_next, hcan, hend, hpe, ho1, Bool.false_eq_true, if_false, if_true,
      ite_true, ite_false]
    simp [hstep]
  · have hstep := generateStep_natural_end s o []
      (by rw [hn]; simpa using hk)
    simp only [ev_stream_next, hcan, hend, hpe, Bool.false_eq_true, if_false, if_true,
      ite_true, ite_false]
    simp [hstep]

/-- Running a live stream with `k` of `N` budget tokens generated through
`(N - k) + 1` fully successful engine responses yields `N - k` fragment
results followed by a single natural-end result. -/
theorem runStream_good (os : List EngineStepOracle) (N : Nat) :
    ∀ (k : Nat) (s : EvStreamImpl), preStream s k → s.params.maxTokens = (N : Int) →
    k ≤ N → os.length = (N - k) + 1 → (∀ o ∈ os, goodOracle o) →
    (runStream s os).1 =
      (os.take (N - k)).map
        (fun o => ((some (if o.pieceLen ≤ 0 then "" else o.pieceText) : Option String),
          EvError.success, (none : Option TerminalKind))) ++
      [((none : Option String), EvError.success, some TerminalKind.endedNatural)] := by
  induction os with
  | nil =>
    intro k s _ _ _ hlen _
    simp at hlen
  | cons o os ih =>
    intro k s hs hmax hk hlen hgood
    have hgoodo : goodOracle o := hgood o (List.mem_cons_self o os)
    by_cases hkN : k = N
    · have hos : os = [] := by
        simp only [List.length_cons] at hlen
        have hz : os.length = 0 := by omega
        exact List.length_eq_zero.mp hz
      subst hos
      obtain ⟨hf, hst, ht⟩ := next_natural_end s o k hs hgoodo (by omega)
      have hNk : N - k = 0 := by omega
      simp [runStream, hf, hst, ht, hNk]
    · have hklt : k < N := lt_of_le_of_ne hk hkN
      obtain ⟨hf, hst, ht, hpre, hpar⟩ := next_continue s o k hs hgoodo (by omega)
      have hlen2 : os.length = (N - (k + 1)) + 1 := by
        simp only [List.length_cons] at hlen
        omega
      have htail := ih (k + 1) (ev_stream_next s o).stream hpre
        (by rw [hpar, hmax]) hklt hlen2 (fun x hx => hgood x (List.mem_cons_of_mem o hx))
      have htake : N - k = (N - (k + 1)) + 1 := by omega
      simp only [runStream, hf, hst, ht, htail, htake, List.take_succ_cons, List.map_cons,
        List.cons_append]

/-- The generation step preserves the generation parameters. -/
theorem generateStep_params (s : EvStreamImpl) (o : EngineStepOracle)
    (ops : List EngineOp) : (generateStep s o ops).stream.params = s.params := by
  simp only [generateStep]
  split_ifs <;> simp

/-- Every `next()` call preserves the generation parameters. -/
theorem next_params (s : EvStreamImpl) (o : EngineStepOracle) :
    (ev_stream_next s o).stream.params = s.params := by
  simp only [ev_stream_next]
  split_ifs <;>
    first
      | rfl
      | exact generateStep_params s o []
      | simpa using generateStep_params
          { s with nCur := (s.promptTokens.length : Int), promptEvaluated := true } o
          [EngineOp.kvClear, EngineOp.decodePrompt]

/-- A `next()` call never decreases the confidence measurement count. -/
theorem next_count_mono (s : EvStreamImpl) (o : EngineStepOracle) :
    s.confidenceCount ≤ (ev_stream_next s o).stream.confidenceCount := by
  simp only [ev_stream_next]
  split_ifs <;>
    first
      | simp
      | exact generateStep_count_mono s o []
      | simpa using generateStep_count_mono
          { s with nCur := (s.promptTokens.length : Int), promptEvaluated := true } o
          [EngineOp.kvClear, EngineOp.decodePrompt]

/-- With a positive threshold, a `next()` call that returns a fragment
increments the confidence measurement count by exactly one. -/
theorem next_some_count (s : EvStreamImpl) (o : EngineStepOracle)
    (hth : 0 < s.params.confidenceThreshold)
    (hf : (ev_stream_next s o).fragment ≠ none) :
    (ev_stream_next s o).stream.confidenceCount = s.confidenceCount + 1 := by
  simp only [ev_stream_next] at hf ⊢
  split_ifs at hf ⊢ <;>
    first
      | exact absurd rfl hf
      | exact generateStep_some_count _ o _ hth hf

/-- With a non-positive confidence threshold, the generation step leaves the
confidence state untouched. -/
theorem generateStep_conf_zero (s : EvStreamImpl) (o : EngineStepOracle)
    (ops : List EngineOp) (hth : ¬ 0 < s.params.confidenceThreshold) :
    (generateStep s o ops).stream.lastConfidence = s.lastConfidence ∧
    (generateStep s o ops).stream.confidenceCount = s.confidenceCount ∧
    (generateStep s o ops).stream.needsHandoff = s.needsHandoff := by
  have h1 := updateConfidence_of_not_pos s o hth
  simp only [generateStep, h1]
  split_ifs <;> simp

/-- With a zero confidence threshold, a `next()` call leaves the confidence
state untouched. -/
theorem next_conf_zero (s : EvStreamImpl) (o : EngineStepOracle)
    (hth : s.params.confidenceThreshold = 0) :
    (ev_stream_next s o).stream.lastConfidence = s.lastConfidence ∧
    (ev_stream_next s o).stream.confidenceCount = s.confidenceCount ∧
    (ev_stream_next s o).stream.needsHandoff = s.needsHandoff := by
  have hth2 : ¬ 0 < s.params.confidenceThreshold := by simp [hth]
  simp only [ev_stream_next]
  split_ifs <;>
    first
      | exact ⟨rfl, rfl, rfl⟩
      | exact generateStep_conf_zero _ o _ hth2

/-- With a zero confidence threshold, any run of `next()` calls leaves the
confidence state untouched. -/
theorem runStream_conf_zero (os : List EngineStepOracle) :
    ∀ s : EvStreamImpl, s.params.confidenceThreshold = 0 →
    (runStream s os).2.lastConfidence = s.lastConfidence ∧
    (runStream s os).2.confidenceCount = s.confidenceCount ∧
    (runStream s os).2.needsHandoff = s.needsHandoff := by
  induction os with
  | nil => intro s _; exact ⟨rfl, rfl, rfl⟩
  | cons o os ih =>
    intro s hth
    have hp := next_params s o
    have hc := next_conf_zero s o hth
    have hrest := ih (ev_stream_next s o).stream (by rw [hp, hth])
    simp only [runStream]
    exact ⟨hrest.1.trans hc.1, hrest.2.1.trans hc.2.1, hrest.2.2.trans hc.2.2⟩

/-! ## Claim theorems -/

/-- C1, counterexample: a session with `max_tokens = 0` enters the natural
terminal state on its first `next()` call with status `EV_SUCCESS`, but the
following `next()` call returns `none` with status `EV_ERROR_STREAM_ENDED`,
which differs from the status that accompanied the terminal transition — so
subsequent calls do not repeat the first terminal status. -/
theorem C1_counterexample :
    (ev_stream_next (initStream [1] { maxTokens := 0, confidenceThreshold := 0 })
        sampleOracle).fragment = none ∧
    (ev_stream_next (initStream [1] { maxTokens := 0, confidenceThreshold := 0 })
        sampleOracle).status = EvError.success ∧
    (ev_stream_next (initStream [1] { maxTokens := 0, confidenceThreshold := 0 })
        sampleOracle).terminal = some TerminalKind.endedNatural ∧
    (ev_stream_next
        (ev_stream_next (initStream [1] { maxTokens := 0, confidenceThreshold := 0 })
          sampleOracle).stream sampleOracle).fragment = none ∧
    (ev_stream_next
        (ev_stream_next (initStream [1] { maxTokens := 0, confidenceThreshold := 0 })
          sampleOracle).stream sampleOracle).status = EvError.streamEnded ∧
    EvError.streamEnded ≠ EvError.success := by
  decide

/-- C1, amended: once a session is in a terminal state (`ended = true`),
every subsequent `next()` call returns `none` with the uniform status
`EV_ERROR_STREAM_ENDED` — the same status for all three terminal kinds —
and the session stays terminal.  The status accompanying the terminal
transition itself (success for natural end, inference-failed for error end,
stream-ended for cancelled end) is what discriminates the kinds, not the
status of later calls. -/
theorem C1_amended_terminal_status (s : EvStreamImpl) (o : EngineStepOracle)
    (h : s.ended = true) :
    (ev_stream_next s o).fragment = none ∧
    (ev_stream_next s o).status = EvError.streamEnded ∧
    (ev_stream_next s o).stream.ended = true := by
  cases hc : s.cancelled <;> simp [ev_stream_next, hc, h]

/-- C1 witness: the amended statement at a concrete terminal session. -/
theorem C1_amended_terminal_status_witness :
    (ev_stream_next { initStream [1] ev_generation_params_default with ended := true }
        sampleOracle).fragment = none ∧
    (ev_stream_next { initStream [1] ev_generation_params_default with ended := true }
        sampleOracle).status = EvError.streamEnded ∧
    (ev_stream_next { initStream [1] ev_generation_params_default with ended := true }
        sampleOracle).stream.ended = true :=
  C1_amended_terminal_status
    { initStream [1] ev_generation_params_default with ended := true } sampleOracle rfl

/-- C2, counterexample: with `confidence_threshold = 0` (the default), a
`next()` call that returns a non-none fragment leaves `token_index` at 0
instead of incrementing it — `token_index` is `confidence_count`, which is
only updated when the threshold is positive. -/
theorem C2_counterexample :
    (ev_stream_get_token_info
        (initStream [1] { maxTokens := 5, confidenceThreshold := 0 })).tokenIndex = 0 ∧
    (ev_stream_next (initStream [1] { maxTokens := 5, confidenceThreshold := 0 })
        sampleOracle).fragment = some "a" ∧
    (ev_stream_get_token_info
        (ev_stream_next (initStream [1] { maxTokens := 5, confidenceThreshold := 0 })
          sampleOracle).stream).tokenIndex = 0 := by
  decide

/-- C2, amended: `token_index` from `get_token_info()` is non-decreasing
across `next()` calls, and — provided `confidence_threshold > 0` — it
increments by exactly 1 for each `next()` call that returns a non-none
fragment.  With `confidence_threshold = 0` it remains 0 forever. -/
theorem C2_amended_token_index (s : EvStreamImpl) (o : EngineStepOracle) :
    (ev_stream_get_token_info s).tokenIndex ≤
      (ev_stream_get_token_info (ev_stream_next s o).stream).tokenIndex ∧
    (0 < s.params.confidenceThreshold → (ev_stream_next s o).fragment ≠ none →
      (ev_stream_get_token_info (ev_stream_next s o).stream).tokenIndex =
        (ev_stream_get_token_info s).tokenIndex + 1) := by
  constructor
  · simp only [ev_stream_get_token_info]
    exact next_count_mono s o
  · intro hth hf
    simp only [ev_stream_get_token_info]
    exact next_some_count s o hth hf

/-- C2 witness: the amended statement applied with a positive threshold and
a fragment-returning call, discharging both hypotheses. -/
theorem C2_amended_token_index_witness :
    (ev_stream_get_token_info
        (ev_stream_next (initStream [1] { maxTokens := 5, confidenceThreshold := 1 })
          sampleOracle).stream).tokenIndex =
      (ev_stream_get_token_info
        (initStream [1] { maxTokens := 5, confidenceThreshold := 1 })).tokenIndex + 1 :=
  (C2_amended_token_index (initStream [1] { maxTokens := 5, confidenceThreshold := 1 })
    sampleOracle).2 (by decide) (by decide)

/-- C3, bug evaluation: on a streaming session, when the sampled token
renders as empty text (`llama_token_to_piece` returns `n ≤ 0`) and the
feedback decode of that token FAILS, `ev_stream_next` still returns the
empty-string fragment with `EV_SUCCESS` and the session stays live: the
return value of the `llama_decode` at engine.cpp line 809 is ignored, so
this decode failure is not fatal, contradicting the fatal-decode-failure
rule the spec states. -/
theorem C3_empty_piece_decode_failure_ignored :
    (ev_stream_next
        { initStream [1] { maxTokens := 5, confidenceThreshold := 0 } with
            promptEvaluated := true, nCur := 1 }
        { promptDecodeOk := true, cancelMidStep := false, sampledToken := 7, isEog := false,
          logitsConfidence := 0, pieceLen := 0, pieceText := "",
          feedbackDecodeOk := false }).fragment = some "" ∧
    (ev_stream_next
        { initStream [1] { maxTokens := 5, confidenceThreshold := 0 } with
            promptEvaluated := true, nCur := 1 }
        { promptDecodeOk := true, cancelMidStep := false, sampledToken := 7, isEog := false,
          logitsConfidence := 0, pieceLen := 0, pieceText := "",
          feedbackDecodeOk := false }).status = EvError.success ∧
    (ev_stream_next
        { initStream [1] { maxTokens := 5, confidenceThreshold := 0 } with
            promptEvaluated := true, nCur := 1 }
        { promptDecodeOk := true, cancelMidStep := false, sampledToken := 7, isEog := false,
          logitsConfidence := 0, pieceLen := 0, pieceText := "",
          feedbackDecodeOk := false }).stream.ended = false ∧
    (ev_stream_next
        { initStream [1] { maxTokens := 5, confidenceThreshold := 0 } with
            promptEvaluated := true, nCur := 1 }
        { promptDecodeOk := true, cancelMidStep := false, sampledToken := 7, isEog := false,
          logitsConfidence := 0, pieceLen := 0, pieceText := "",
          feedbackDecodeOk := false }).terminal = none ∧
    EngineOp.decodeToken ∈
      (ev_stream_next
        { initStream [1] { maxTokens := 5, confidenceThreshold := 0 } with
            promptEvaluated := true, nCur := 1 }
        { promptDecodeOk := true, cancelMidStep := false, sampledToken := 7, isEog := false,
          logitsConfidence := 0, pieceLen := 0, pieceText := "",
          feedbackDecodeOk := false }).engineOps := by
  decide

/-- C4: if `cancel()` is called on a freshly started session before the
first `next()` call, then that first `next()` call performs no engine work
at all (no prompt evaluation, no sampling), returns `none` with status
`EV_ERROR_STREAM_ENDED`, and takes the cancelled terminal transition. -/
theorem C4_cancel_before_first_next (promptTokens : List Int) (nCtx : Int)
    (params : GenParams) (s : EvStreamImpl)
    (_h : ev_generate_stream promptTokens nCtx params = Except.ok s)
    (o : EngineStepOracle) :
    (ev_stream_next (ev_stream_cancel s) o).fragment = none ∧
    (ev_stream_next (ev_stream_cancel s) o).status = EvError.streamEnded ∧
    (ev_stream_next (ev_stream_cancel s) o).terminal = some TerminalKind.endedCancelled ∧
    (ev_stream_next (ev_stream_cancel s) o).engineOps = [] := by
  simp [ev_stream_next, ev_stream_cancel]

/-- C4 witness: a concrete started-then-cancelled session. -/
theorem C4_cancel_before_first_next_witness :
    (ev_stream_next (ev_stream_cancel (initStream [1] ev_generation_params_default))
        sampleOracle).fragment = none ∧
    (ev_stream_next (ev_stream_cancel (initStream [1] ev_generation_params_default))
        sampleOracle).status = EvError.streamEnded ∧
    (ev_stream_next (ev_stream_cancel (initStream [1] ev_generation_params_default))
        sampleOracle).terminal = some TerminalKind.endedCancelled ∧
    (ev_stream_next (ev_stream_cancel (initStream [1] ev_generation_params_default))
        sampleOracle).engineOps = [] :=
  C4_cancel_before_first_next [1] 12 ev_generation_params_default
    (initStream [1] ev_generation_params_default) rfl sampleOracle

/-- C5: given that tokenization succeeded (a non-empty token list), stream
start fails exactly when the tokenized prompt length exceeds
`max_context_size() - 4`; in particular, with `n_ctx = 12` and a 10-token
prompt, start fails because `10 > 8`. -/
theorem C5_too_long_check (promptTokens : List Int) (nCtx : Int) (params : GenParams)
    (h : promptTokens ≠ []) :
    (ev_generate_stream promptTokens nCtx params = Except.error EvError.inferenceFailed ↔
      nCtx - 4 < (promptTokens.length : Int)) ∧
    ev_generate_stream [1, 2, 3, 4, 5, 6, 7, 8, 9, 10] 12 params =
      Except.error EvError.inferenceFailed := by
  constructor
  · by_cases hlt : nCtx - 4 < (promptTokens.length : Int) <;>
      simp [ev_generate_stream, h, hlt]
  · norm_num [ev_generate_stream]

/-- C5 witness: the too-long rule evaluated at a concrete non-empty prompt. -/
theorem C5_too_long_check_witness :
    (ev_generate_stream [1] 12 ev_generation_params_default =
        Except.error EvError.inferenceFailed ↔
      (12 : Int) - 4 < (([1] : List Int).length : Int)) ∧
    ev_generate_stream [1, 2, 3, 4, 5, 6, 7, 8, 9, 10] 12 ev_generation_params_default =
      Except.error EvError.inferenceFailed :=
  C5_too_long_check [1] 12 ev_generation_params_default (by decide)

/-- C6: for a session with `max_tokens = N` whose engine decodes
successfully and never samples an end-of-sequence token (and no cancellation
occurs), a run of `N + 1` `next()` calls returns exactly `N` non-none
fragments — the rendered text of each sampled token, or the empty string for
an empty-rendering token — and then one `none` with status `EV_SUCCESS` and
the natural terminal transition: a success, not an error. -/
theorem C6_exact_token_budget (promptTokens : List Int) (params : GenParams) (N : Nat)
    (hN : params.maxTokens = (N : Int)) (os : List EngineStepOracle)
    (hlen : os.length = N + 1) (hgood : ∀ o ∈ os, goodOracle o) :
    (runStream (initStream promptTokens params) os).1 =
      (os.take N).map
        (fun o => ((some (if o.pieceLen ≤ 0 then "" else o.pieceText) : Option String),
          EvError.success, (none : Option TerminalKind))) ++
      [((none : Option String), EvError.success, some TerminalKind.endedNatural)] := by
  have hrun := runStream_good os N 0 (initStream promptTokens params)
    ⟨rfl, rfl, Or.inl ⟨rfl, rfl⟩⟩ (by simpa [initStream] using hN) (Nat.zero_le N)
    (by simpa using hlen) hgood
  simpa using hrun

/-- C6 witness: `max_tokens = 2` with three fully successful engine
responses — two fragments, then a natural end. -/
theorem C6_exact_token_budget_witness :
    (runStream (initStream [1] { maxTokens := 2, confidenceThreshold := 0 })
        [sampleOracle, sampleOracle, sampleOracle]).1 =
      ([sampleOracle, sampleOracle, sampleOracle].take 2).map
        (fun o => ((some (if o.pieceLen ≤ 0 then "" else o.pieceText) : Option String),
          EvError.success, (none : Option TerminalKind))) ++
      [((none : Option String), EvError.success, some TerminalKind.endedNatural)] :=
  C6_exact_token_budget [1] { maxTokens := 2, confidenceThreshold := 0 } 2 rfl
    [sampleOracle, sampleOracle, sampleOracle] rfl (by decide)

/-- C7: with `confidence_threshold = 0`, after any number of `next()` calls
with any engine responses, `get_token_info()` reports `last_confidence = -1`,
`avg_confidence = -1`, and `needs_handoff = false`. -/
theorem C7_threshold_zero (promptTokens : List Int) (params : GenParams)
    (hth : params.confidenceThreshold = 0) (os : List EngineStepOracle) :
    (ev_stream_get_token_info
        (runStream (initStream promptTokens params) os).2).confidence = -1 ∧
    (ev_stream_get_token_info
        (runStream (initStream promptTokens params) os).2).avgConfidence = -1 ∧
    (ev_stream_get_token_info
        (runStream (initStream promptTokens params) os).2).needsCloudHandoff = false := by
  obtain ⟨h1, h2, h3⟩ := runStream_conf_zero os (initStream promptTokens params)
    (by simpa [initStream] using hth)
  simp only [ev_stream_get_token_info]
  rw [h1, h2, h3]
  simp [initStream]

/-- C7 witness: a concrete run with the default (zero) threshold. -/
theorem C7_threshold_zero_witness :
    (ev_stream_get_token_info
        (runStream (initStream [1] ev_generation_params_default)
          [sampleOracle]).2).confidence = -1 ∧
    (ev_stream_get_token_info
        (runStream (initStream [1] ev_generation_params_default)
          [sampleOracle]).2).avgConfidence = -1 ∧
    (ev_stream_get_token_info
        (runStream (initStream [1] ev_generation_params_default)
          [sampleOracle]).2).needsCloudHandoff = false :=
  C7_threshold_zero [1] ev_generation_params_default rfl [sampleOracle]

/-- C8, counterexample: `memory_guard_init` stores the fresh probe reading
into `peak_usage` unconditionally (memory_guard.cpp line 437), so calling it
when the probe reads below the recorded peak DECREASES `peak_usage` even
though no `reset_stats()` happened: after a monitor sample of 100, an init
with probe 50 drops the peak from 100 to 50. -/
theorem C8_counterexample :
    memory_guard_get_peak_usage
        (GuardOp.apply (GuardOp.init 50)
          (GuardOp.apply (GuardOp.monitorStep 100) memoryGuardInitialState)) <
      memory_guard_get_peak_usage
        (GuardOp.apply (GuardOp.monitorStep 100) memoryGuardInitialState) := by
  decide

/-- C8, amended: `peak_usage` is non-decreasing under every state-mutating
MemoryGuard operation except `reset_stats()`, `shutdown()` (which invokes
`reset_stats`), and `init()` (which re-seeds the peak with the current probe
reading and can therefore lower it). -/
theorem C8_amended_peak_monotone (st : MemoryGuardState) (op : GuardOp)
    (hInit : ∀ probe, op ≠ GuardOp.init probe)
    (hReset : op ≠ GuardOp.resetStats)
    (hShutdown : op ≠ GuardOp.shutdown) :
    st.peakUsage ≤ (GuardOp.apply op st).peakUsage := by
  cases op with
  | monitorStep probe =>
    simp only [GuardOp.apply, memory_monitor_step]
    exact le_max_left _ _
  | setLimit limitBytes =>
    simp only [GuardOp.apply, memory_guard_set_limit]
    split_ifs <;> simp [start_monitoring, stop_monitoring]
  | setCallback registered => simp [GuardOp.apply, memory_guard_set_callback]
  | setThreshold t => simp [GuardOp.apply, memory_guard_set_threshold]
  | setCheckInterval ms => simp [GuardOp.apply, memory_guard_set_check_interval]
  | setAutoCleanup enable => simp [GuardOp.apply, memory_guard_set_auto_cleanup]
  | cleanup probe => simp [GuardOp.apply, memory_guard_cleanup]
  | resetStats => exact absurd rfl hReset
  | start => simp [GuardOp.apply, memory_guard_start, start_monitoring]
  | stop => simp [GuardOp.apply, memory_guard_stop, stop_monitoring]
  | init probe => exact absurd rfl (hInit probe)
  | shutdown => exact absurd rfl hShutdown

/-- C8 witness: the amended statement at a concrete operation and state. -/
theorem C8_amended_peak_monotone_witness :
    memoryGuardInitialState.peakUsage ≤
      (GuardOp.apply (GuardOp.setLimit 5) memoryGuardInitialState).peakUsage :=
  C8_amended_peak_monotone memoryGuardInitialState (GuardOp.setLimit 5)
    (fun _ h => GuardOp.noConfusion h)
    (fun h => GuardOp.noConfusion h)
    (fun h => GuardOp.noConfusion h)

/-- C9: `set_limit(0)` stops monitoring, and a subsequent
`get_current_usage()` call returns the platform probe reading taken at call
time (not the cached value), and that reading is a byte count (a `Nat`, so
trivially ≥ 0). -/
theorem C9_set_limit_zero_live_reading (st : MemoryGuardState) (probe : Nat) :
    (memory_guard_set_limit st 0).monitoringActive = false ∧
    memory_guard_get_current_usage (memory_guard_set_limit st 0) probe = probe ∧
    0 ≤ memory_guard_get_current_usage (memory_guard_set_limit st 0) probe := by
  refine ⟨?_, ?_, Nat.zero_le _⟩ <;>
    simp [memory_guard_set_limit, stop_monitoring, memory_guard_get_current_usage]

/-- C10: `has_next()` returns true exactly when the stream has not ended and
cancellation has not been requested; in particular, immediately after
`cancel()` it returns false, before any `next()` call has observed the
cancellation. -/
theorem C10_has_next_iff (s : EvStreamImpl) :
    (ev_stream_has_next s = true ↔ s.ended = false ∧ s.cancelled = false) ∧
    ev_stream_has_next (ev_stream_cancel s) = false := by
  constructor
  · cases he : s.ended <;> cases hc : s.cancelled <;>
      simp [ev_stream_has_next, he, hc]
  · simp [ev_stream_has_next, ev_stream_cancel]
